import Mathlib

set_option maxHeartbeats 1000000

/-!
Shallow embedding of the risk-scoring / enforcement core of a Telegram
moderation bot (files anti_spam.py, moderation.py, rate_limiter.py,
security.py, bot_data.py, config.py), together with proofs settling the
frozen claims C1..C10.

Modelling conventions:
* Python `datetime` values are integers (seconds); `timedelta(hours=1)` is
  3600, and so on.  `datetime.now()` becomes an explicit `now` argument.
* Python dicts are insertion-ordered association lists; `d[k] = v` replaces
  the first binding of `k` in place or appends a fresh one at the end,
  exactly as CPython preserves insertion order.
* md5 fingerprints of message texts are represented by the texts themselves
  (the code only ever compares fingerprints for equality).
* Strings are processed character-by-character over `String.data` with
  structural recursions, mirroring the Python string operations used by the
  source (lower-casing, whitespace splitting, substring search); the source
  only feeds ASCII data into the heuristics exercised here.
* Float ratio thresholds (`MAX_CAPS_PERCENTAGE = 0.7`, the `0.5` digit
  density and `0.3` special-character density) are modelled as exact
  rationals via cross-multiplication.
-/

namespace TgBot

/-! ### Association lists modelling Python dicts -/

/-- Lookup in an insertion-ordered association list (Python `d.get(k)`). -/
def alookup {κ α : Type} [DecidableEq κ] : List (κ × α) → κ → Option α
  | [], _ => none
  | (k', v') :: rest, k => if k' = k then some v' else alookup rest k

/-- Lookup with a default (Python `d.get(k, dflt)` / `defaultdict`). -/
def agetD {κ α : Type} [DecidableEq κ] (m : List (κ × α)) (k : κ) (dflt : α) : α :=
  (alookup m k).getD dflt

/-- Assignment `d[k] = v`: replace the first binding in place, else append. -/
def aset {κ α : Type} [DecidableEq κ] : List (κ × α) → κ → α → List (κ × α)
  | [], k, v => [(k, v)]
  | (k', v') :: rest, k, v =>
      if k' = k then (k, v) :: rest else (k', v') :: aset rest k v

/-- Deletion `del d[k]`. -/
def adel {κ α : Type} [DecidableEq κ] (m : List (κ × α)) (k : κ) : List (κ × α) :=
  m.filter (fun p => decide (p.1 ≠ k))

theorem alookup_aset_self {κ α : Type} [DecidableEq κ] (m : List (κ × α)) (k : κ) (v : α) :
    alookup (aset m k v) k = some v := by
  induction m with
  | nil => simp [aset, alookup]
  | cons hd tl ih =>
      obtain ⟨k', v'⟩ := hd
      by_cases h : k' = k
      · simp [aset, alookup, h]
      · simp [aset, alookup, h, ih]

theorem alookup_aset_ne {κ α : Type} [DecidableEq κ] (m : List (κ × α)) (k k' : κ) (v : α)
    (h : k ≠ k') : alookup (aset m k v) k' = alookup m k' := by
  induction m with
  | nil => simp [aset, alookup, h]
  | cons hd tl ih =>
      obtain ⟨k₀, v₀⟩ := hd
      by_cases h₀ : k₀ = k
      · subst h₀
        simp [aset, alookup, h]
      · simp [aset, alookup, h₀, ih]

theorem alookup_adel_self {κ α : Type} [DecidableEq κ] (m : List (κ × α)) (k : κ) :
    alookup (adel m k) k = none := by
  induction m with
  | nil => simp [adel, alookup]
  | cons hd tl ih =>
      obtain ⟨k₀, v₀⟩ := hd
      by_cases h₀ : k₀ = k
      · subst h₀
        simpa [adel, alookup] using ih
      · simpa [adel, alookup, h₀] using ih

theorem agetD_aset_self {κ α : Type} [DecidableEq κ] (m : List (κ × α)) (k : κ) (v dflt : α) :
    agetD (aset m k v) k dflt = v := by
  simp [agetD, alookup_aset_self]

/-! ### Character-level string primitives (Python `str` operations) -/

/-- Python `str.lower()` restricted to ASCII, over the character list. -/
def lowerData (s : String) : List Char :=
  s.data.map Char.toLower

/-- Check whether `pat` is a prefix of the character list. -/
def isPrefixOfL : List Char → List Char → Bool
  | [], _ => true
  | _ :: _, [] => false
  | a :: as, b :: bs => a == b && isPrefixOfL as bs

/-- Python `pat in s` substring containment over character lists. -/
def containsL (pat : List Char) : List Char → Bool
  | [] => pat.isEmpty
  | c :: cs => isPrefixOfL pat (c :: cs) || containsL pat cs

/-- Helper for `splitWs`: accumulate the current (reversed) token. -/
def splitWsAux : List Char → List Char → List (List Char)
  | [], acc => if acc.isEmpty then [] else [acc.reverse]
  | c :: cs, acc =>
      if c.isWhitespace then
        if acc.isEmpty then splitWsAux cs [] else acc.reverse :: splitWsAux cs []
      else splitWsAux cs (c :: acc)

/-- Python `str.split()` with no argument: split on whitespace runs, no empties. -/
def splitWs (s : List Char) : List (List Char) :=
  splitWsAux s []

/-- Python `l[-n:]`: the last `n` elements. -/
def lastN {α : Type} (n : Nat) (l : List α) : List α :=
  l.drop (l.length - n)

/-! ### Telegram input shapes (the slice of `telegram.Update` the code reads) -/

structure TgUser where
  id : Int
  username : Option String
  first_name : String
deriving DecidableEq, Repr

structure TgMessage where
  text : Option String
deriving DecidableEq, Repr

structure Update where
  message : Option TgMessage
  effective_user : TgUser
deriving DecidableEq, Repr

/-! ### Configuration (config.py `BotConfig`) -/

/-- Configuration record mirroring config.py.  `MAX_CAPS_PERCENT_NUM /
MAX_CAPS_PERCENT_DEN` encodes the float `MAX_CAPS_PERCENTAGE` as an exact
rational; `SPAM_PATTERNS` holds the compiled regex matchers as text
predicates (the regex engine is an external library, abstracted as a
match oracle per pattern). -/
structure BotConfig where
  OWNER_ID : Int
  MAX_MESSAGES_PER_MINUTE : Nat
  MAX_MESSAGES_PER_HOUR : Nat
  MAX_API_CALLS_PER_MINUTE : Nat
  MAX_MESSAGE_LENGTH : Nat
  MAX_IDENTICAL_MESSAGES : Nat
  SPAM_SCORE_THRESHOLD : Nat
  AUTO_BAN_SPAM_SCORE : Nat
  ENABLE_PROFANITY_FILTER : Bool
  ENABLE_LINK_FILTER : Bool
  ENABLE_CAPS_FILTER : Bool
  MAX_CAPS_PERCENT_NUM : Nat
  MAX_CAPS_PERCENT_DEN : Nat
  ENABLE_USER_VERIFICATION : Bool
  SPAM_PATTERNS : List (String → Bool)
  PROFANITY_WORDS : List String

/-- Concrete configuration carrying the numeric defaults of config.py
(threshold 5, auto-ban 10, identical-message limit 3, caps ratio 7/10);
the regex pattern list is left empty because the claims quantify over the
pattern oracles. -/
def exampleConfig : BotConfig :=
  { OWNER_ID := 1
    MAX_MESSAGES_PER_MINUTE := 10
    MAX_MESSAGES_PER_HOUR := 100
    MAX_API_CALLS_PER_MINUTE := 5
    MAX_MESSAGE_LENGTH := 4000
    MAX_IDENTICAL_MESSAGES := 3
    SPAM_SCORE_THRESHOLD := 5
    AUTO_BAN_SPAM_SCORE := 10
    ENABLE_PROFANITY_FILTER := true
    ENABLE_LINK_FILTER := true
    ENABLE_CAPS_FILTER := true
    MAX_CAPS_PERCENT_NUM := 7
    MAX_CAPS_PERCENT_DEN := 10
    ENABLE_USER_VERIFICATION := true
    SPAM_PATTERNS := []
    PROFANITY_WORDS := ["spam", "scam", "fake"] }

/-! ### Persistent user records (bot_data.py) -/

/-- Embeds bot_data.py `UserStats` dataclass. -/
structure UserStats where
  user_id : Int
  username : String
  first_seen : Int
  last_seen : Int
  message_count : Nat
  spam_score : Nat
  warnings : Nat
  verification_status : String
  last_spam_check : Option Int
deriving DecidableEq, Repr

/-- Embeds bot_data.py `BotData`: the full in-memory persistent state. -/
structure BotData where
  session_id : String
  owner_id : Int
  approved_users : List Int
  banned_users : List (Int × Int)
  group_states : List (Int × Bool)
  chat_history : List String
  user_stats : List (Int × UserStats)
  spam_violations : List (Int × List Int)
  message_hashes : List (String × List Int)
  user_message_counts : List (Int × List Int)
  rate_limit_violations : List (Int × List Int)
  api_call_counts : List (Int × List Int)
  failed_verifications : List (Int × Nat)
  suspicious_users : List Int
  session_start_time : Int
  last_backup_time : Option Int
deriving DecidableEq, Repr

/-- Embeds bot_data.py `BotData.__init__` given the nondeterministic inputs
(`random.randint` session id rendered as a string, and the current time). -/
def BotData.fresh (cfg : BotConfig) (fresh_session_id : String) (now : Int) : BotData :=
  { session_id := fresh_session_id
    owner_id := cfg.OWNER_ID
    approved_users := []
    banned_users := []
    group_states := []
    chat_history := []
    user_stats := []
    spam_violations := []
    message_hashes := []
    user_message_counts := []
    rate_limit_violations := []
    api_call_counts := []
    failed_verifications := []
    suspicious_users := []
    session_start_time := now
    last_backup_time := none }

/-- Embeds bot_data.py `BotData.get_user_stats`: create lazily with `now` as
first/last seen, else refresh `last_seen` and a non-placeholder username.
Returns the (updated) record together with the updated store. -/
def BotData.get_user_stats (bd : BotData) (user_id : Int) (username : String)
    (now : Int) : UserStats × BotData :=
  match alookup bd.user_stats user_id with
  | none =>
      let st : UserStats :=
        { user_id := user_id, username := username, first_seen := now, last_seen := now
          message_count := 0, spam_score := 0, warnings := 0
          verification_status := "unverified", last_spam_check := none }
      (st, { bd with user_stats := aset bd.user_stats user_id st })
  | some st =>
      let st :=
        { st with last_seen := now
                  username := if username ≠ "unknown" then username else st.username }
      (st, { bd with user_stats := aset bd.user_stats user_id st })

/-- Embeds anti_spam.py line 84: `user_stats.last_spam_check = datetime.now()`
(mutation of the record object held in the store). -/
def BotData.set_last_spam_check (bd : BotData) (user_id : Int) (now : Int) : BotData :=
  match alookup bd.user_stats user_id with
  | none => bd
  | some st =>
      { bd with user_stats := aset bd.user_stats user_id { st with last_spam_check := some now } }

/-- Embeds bot_data.py `BotData.add_spam_violation`: append a violation timestamp,
prune to a 24-hour window, and bump the cumulative `spam_score` counter.
(The `violation_type` argument is only logged and is omitted.) -/
def BotData.add_spam_violation (bd : BotData) (user_id : Int) (now : Int) : BotData :=
  let lst := agetD bd.spam_violations user_id [] ++ [now]
  let lst := lst.filter (fun t => decide (t > now - 86400))
  let bd := { bd with spam_violations := aset bd.spam_violations user_id lst }
  let r := bd.get_user_stats user_id "unknown" now
  { r.2 with user_stats := aset r.2.user_stats user_id { r.1 with spam_score := r.1.spam_score + 1 } }

/-! ### Anti-spam engine (anti_spam.py `AntiSpam`) -/

/-- Mutable state of the `AntiSpam` instance: the duplicate-message index
(fingerprint ↦ list of (user id, timestamp)) and the per-user message
cadence index. -/
structure AntiSpamState where
  message_hashes : List (String × List (Int × Int))
  user_message_intervals : List (Int × List Int)
deriving DecidableEq, Repr

namespace AntiSpam

/-- Embeds anti_spam.py `_check_spam_patterns`: one tag `spam_pattern_i` per
matching compiled pattern. -/
def check_spam_patterns (cfg : BotConfig) (text : String) : List String :=
  ((cfg.SPAM_PATTERNS.enum).filter (fun p => p.2 text)).map
    (fun p => "spam_pattern_" ++ toString p.1)

/-- Embeds anti_spam.py `_contains_profanity`: lower-cased whitespace tokens against
the lower-cased configured profanity set. -/
def contains_profanity (cfg : BotConfig) (text : String) : Bool :=
  cfg.ENABLE_PROFANITY_FILTER &&
    (splitWs (lowerData text)).any
      (fun w => (cfg.PROFANITY_WORDS.map lowerData).contains w)

/-- Embeds anti_spam.py `_check_excessive_caps`: length ≥ 10 and uppercase ratio
strictly above `MAX_CAPS_PERCENTAGE` (cross-multiplied). -/
def check_excessive_caps (cfg : BotConfig) (text : String) : Bool :=
  if !cfg.ENABLE_CAPS_FILTER || text.length < 10 then false
  else
    let caps_count := (text.data.filter Char.isUpper).length
    decide (caps_count * cfg.MAX_CAPS_PERCENT_DEN > cfg.MAX_CAPS_PERCENT_NUM * text.length)

/-- Embeds anti_spam.py `_check_duplicate_message`: prune the fingerprint bucket to
one hour, count prior entries of the same user, append the current entry
only afterwards, and charge `count - limit + 1` once the prior count meets
the configured identical-message limit. -/
def check_duplicate_message (cfg : BotConfig) (σ : AntiSpamState) (user_id : Int)
    (message : String) (now : Int) : Nat × AntiSpamState :=
  let entries := (agetD σ.message_hashes message []).filter (fun e => decide (e.2 > now - 3600))
  let user_duplicates := entries.filter (fun e => decide (e.1 = user_id))
  let σ' := { σ with message_hashes := aset σ.message_hashes message (entries ++ [(user_id, now)]) }
  if user_duplicates.length ≥ cfg.MAX_IDENTICAL_MESSAGES then
    (user_duplicates.length - cfg.MAX_IDENTICAL_MESSAGES + 1, σ')
  else (0, σ')

/-- Embeds anti_spam.py `_check_suspicious_links`: the hard-coded short-link regex
`https?://(bit\.ly|tinyurl|t\.co|short\.link|goo\.gl)/` (IGNORECASE), as
case-insensitive substring search for each literal alternative. -/
def check_suspicious_links (cfg : BotConfig) (text : String) : Bool :=
  cfg.ENABLE_LINK_FILTER &&
    (["bit.ly", "tinyurl", "t.co", "short.link", "goo.gl"].any (fun d =>
      containsL ("http://" ++ d ++ "/").data (lowerData text) ||
      containsL ("https://" ++ d ++ "/").data (lowerData text)))

/-- Embeds anti_spam.py `_check_rapid_messaging`: append `now`, keep the last 10
entries, and flag when ≥ 5 of them fall in the trailing 30 seconds. -/
def check_rapid_messaging (σ : AntiSpamState) (user_id : Int) (now : Int) :
    Bool × AntiSpamState :=
  let times := lastN 10 (agetD σ.user_message_intervals user_id [] ++ [now])
  let σ' := { σ with user_message_intervals := aset σ.user_message_intervals user_id times }
  (decide ((times.filter (fun t => decide (t > now - 30))).length ≥ 5), σ')

/-- Embeds anti_spam.py `_check_account_age`: +1 when the numeric user id exceeds
the 5 000 000 000 high-water mark (gated on `ENABLE_USER_VERIFICATION`). -/
def check_account_age (cfg : BotConfig) (user : TgUser) : Nat :=
  if !cfg.ENABLE_USER_VERIFICATION then 0
  else if user.id > 5000000000 then 1 else 0

/-- Embeds anti_spam.py `AntiSpam.check_spam`: the full scoring pipeline.  Returns
`((is_spam, reason string, score), anti-spam state, bot data)`.  The guard
mirrors Python truthiness: a missing message, missing text, or empty text
short-circuits to `(False, "", 0)`. -/
def check_spam (cfg : BotConfig) (σ : AntiSpamState) (bd : BotData) (upd : Update)
    (now : Int) : (Bool × String × Nat) × AntiSpamState × BotData :=
  match upd.message with
  | none => ((false, "", 0), σ, bd)
  | some msg =>
    match msg.text with
    | none => ((false, "", 0), σ, bd)
    | some message_text =>
      if message_text = "" then ((false, "", 0), σ, bd)
      else
        let user := upd.effective_user
        let s0 : Nat := 0
        let s1 := if message_text.length > cfg.MAX_MESSAGE_LENGTH then s0 + 2 else s0
        let r1 := if message_text.length > cfg.MAX_MESSAGE_LENGTH then
          ["message_too_long"] else []
        let pattern_matches := check_spam_patterns cfg message_text
        let s2 := if pattern_matches ≠ [] then s1 + pattern_matches.length * 2 else s1
        let r2 := r1 ++ pattern_matches
        let s3 := if contains_profanity cfg message_text then s2 + 1 else s2
        let r3 := r2 ++ (if contains_profanity cfg message_text then ["profanity"] else [])
        let s4 := if check_excessive_caps cfg message_text then s3 + 1 else s3
        let r4 := r3 ++ (if check_excessive_caps cfg message_text then ["excessive_caps"] else [])
        let dup := check_duplicate_message cfg σ user.id message_text now
        let s5 := if dup.1 > 0 then s4 + dup.1 else s4
        let r5 := r4 ++ (if dup.1 > 0 then ["duplicate_message"] else [])
        let s6 := if check_suspicious_links cfg message_text then s5 + 3 else s5
        let r6 := r5 ++ (if check_suspicious_links cfg message_text then ["suspicious_links"] else [])
        let rapid := check_rapid_messaging dup.2 user.id now
        let s7 := if rapid.1 then s6 + 2 else s6
        let r7 := r6 ++ (if rapid.1 then ["rapid_messaging"] else [])
        let age := check_account_age cfg user
        let s8 := if age > 0 then s7 + age else s7
        let r8 := r7 ++ (if age > 0 then ["new_account"] else [])
        let uname := match user.username with
          | some u => if u = "" then user.first_name else u
          | none => user.first_name
        let bd := (bd.get_user_stats user.id uname now).2
        let bd := bd.set_last_spam_check user.id now
        let is_spam := decide (s8 ≥ cfg.SPAM_SCORE_THRESHOLD)
        let reason_str := String.intercalate ", " r8
        let bd := if is_spam then bd.add_spam_violation user.id now else bd
        ((is_spam, reason_str, s8), rapid.2, bd)

/-- Spec-side restatement of the C1 scoring table: the literal sum of the
triggered signal weights, each signal evaluated independently on the
pre-call state. -/
def spamSignalSum (cfg : BotConfig) (σ : AntiSpamState) (user : TgUser)
    (text : String) (now : Int) : Nat :=
  (if text.length > cfg.MAX_MESSAGE_LENGTH then 2 else 0)
  + 2 * (check_spam_patterns cfg text).length
  + (if contains_profanity cfg text then 1 else 0)
  + (if check_excessive_caps cfg text then 1 else 0)
  + (check_duplicate_message cfg σ user.id text now).1
  + (if check_suspicious_links cfg text then 3 else 0)
  + (if (check_rapid_messaging σ user.id now).1 then 2 else 0)
  + check_account_age cfg user

/-- Successive penalties returned by `_check_duplicate_message` for the same
user and text at the given sequence of call times (state threaded through). -/
def dupPenalties (cfg : BotConfig) (σ : AntiSpamState) (u : Int) (msg : String) :
    List Int → List Nat
  | [] => []
  | t :: ts =>
      let r := check_duplicate_message cfg σ u msg t
      r.1 :: dupPenalties cfg r.2 u msg ts

end AntiSpam

/-! ### Moderation engine (moderation.py `ModerationSystem`) -/

/-- Outward transport requests issued by the moderation engine.  `warn`
carries the warning ordinal included in the warning message; `mute` carries
the duration in minutes; `deleteMessage` is the trailing spam-message
deletion request. -/
inductive ModAction
  | warn (chat_id user_id : Int) (warning_count : Nat)
  | mute (chat_id user_id : Int) (minutes : Nat)
  | ban (chat_id user_id : Int)
  | deleteMessage
deriving DecidableEq, Repr

/-- Mutable state of `ModerationSystem`: per-(chat, user) warning counters
and mute-until timestamps. -/
structure ModerationState where
  warning_counts : List ((Int × Int) × Nat)
  muted_users : List ((Int × Int) × Int)
deriving DecidableEq, Repr

namespace Moderation

/-- Embeds moderation.py `_mute_user`: record the unmute time and request the
restriction (the transport call is the emitted action). -/
def mute_user (σ : ModerationState) (chat_id user_id : Int) (minutes : Nat)
    (now : Int) : ModerationState × List ModAction :=
  ({ σ with muted_users := aset σ.muted_users (chat_id, user_id) (now + (minutes : Int) * 60) },
   [ModAction.mute chat_id user_id minutes])

/-- Embeds moderation.py `_warn_user`: increment the per-(chat, user) counter, and
from the 3rd warning on additionally auto-mute for 60 minutes (the counter
itself is not touched by the auto-mute). -/
def warn_user (σ : ModerationState) (chat_id user_id : Int) (now : Int) :
    ModerationState × List ModAction :=
  let wc := agetD σ.warning_counts (chat_id, user_id) 0 + 1
  let σ' := { σ with warning_counts := aset σ.warning_counts (chat_id, user_id) wc }
  if wc ≥ 3 then
    let r := mute_user σ' chat_id user_id 60 now
    (r.1, ModAction.warn chat_id user_id wc :: r.2)
  else (σ', [ModAction.warn chat_id user_id wc])

/-- Embeds moderation.py `handle_spam_violation`: threshold dispatch (ban, else
mute 30, else warn), then request deletion of the offending message.
Private chats are exempt. -/
def handle_spam_violation (cfg : BotConfig) (σ : ModerationState) (chat_type : String)
    (chat_id user_id : Int) (spam_score : Nat) (now : Int) :
    ModerationState × List ModAction :=
  if chat_type = "private" then (σ, [])
  else
    let r :=
      if spam_score ≥ cfg.AUTO_BAN_SPAM_SCORE then
        (σ, [ModAction.ban chat_id user_id])
      else if spam_score ≥ cfg.SPAM_SCORE_THRESHOLD + 2 then
        mute_user σ chat_id user_id 30 now
      else if spam_score ≥ cfg.SPAM_SCORE_THRESHOLD then
        warn_user σ chat_id user_id now
      else (σ, [])
    (r.1, r.2 ++ [ModAction.deleteMessage])

/-- Embeds moderation.py `clear_user_warnings` (explicit admin reset). -/
def clear_user_warnings (σ : ModerationState) (chat_id user_id : Int) : ModerationState :=
  { σ with warning_counts := adel σ.warning_counts (chat_id, user_id) }

/-- Embeds moderation.py `get_user_warnings`. -/
def get_user_warnings (σ : ModerationState) (chat_id user_id : Int) : Nat :=
  agetD σ.warning_counts (chat_id, user_id) 0

end Moderation

/-! ### Rate limiter (rate_limiter.py `RateLimiter`) -/

/-- Mutable state of `RateLimiter`: per-user message and API sliding windows,
active cooldown expiry times, and cumulative violation counters (named
`warning_counts` in the source). -/
structure RateLimiterState where
  user_requests : List (Int × List Int)
  api_requests : List (Int × List Int)
  cooldown_users : List (Int × Int)
  warning_counts : List (Int × Nat)
deriving DecidableEq, Repr

namespace RateLimiter

/-- Embeds rate_limiter.py `_apply_cooldown`: bump the violation counter and set a
cooldown of `min(count * 5, 60)` minutes from now. -/
def apply_cooldown (σ : RateLimiterState) (user_id : Int) (now : Int) : RateLimiterState :=
  let n := agetD σ.warning_counts user_id 0 + 1
  let cooldown_minutes := min (n * 5) 60
  { σ with warning_counts := aset σ.warning_counts user_id n
           cooldown_users := aset σ.cooldown_users user_id (now + (cooldown_minutes : Int) * 60) }

/-- Embeds rate_limiter.py `_clean_old_requests`: prune the message window to one
hour and the API window to one minute. -/
def clean_old_requests (σ : RateLimiterState) (user_id : Int) (now : Int) : RateLimiterState :=
  { σ with
    user_requests := aset σ.user_requests user_id
      ((agetD σ.user_requests user_id []).filter (fun t => decide (t > now - 3600)))
    api_requests := aset σ.api_requests user_id
      ((agetD σ.api_requests user_id []).filter (fun t => decide (t > now - 60))) }

/-- Embeds rate_limiter.py `_check_message_rate_limit`: breach of the per-minute or
per-hour cap triggers a cooldown. -/
def check_message_rate_limit (cfg : BotConfig) (σ : RateLimiterState) (user_id : Int)
    (now : Int) : Bool × RateLimiterState :=
  let recent := (agetD σ.user_requests user_id []).filter (fun t => decide (t > now - 60))
  if recent.length ≥ cfg.MAX_MESSAGES_PER_MINUTE then (true, apply_cooldown σ user_id now)
  else
    let hourly := (agetD σ.user_requests user_id []).filter (fun t => decide (t > now - 3600))
    if hourly.length ≥ cfg.MAX_MESSAGES_PER_HOUR then (true, apply_cooldown σ user_id now)
    else (false, σ)

/-- Embeds rate_limiter.py `_check_api_rate_limit`. -/
def check_api_rate_limit (cfg : BotConfig) (σ : RateLimiterState) (user_id : Int)
    (now : Int) : Bool × RateLimiterState :=
  let recent := (agetD σ.api_requests user_id []).filter (fun t => decide (t > now - 60))
  if recent.length ≥ cfg.MAX_API_CALLS_PER_MINUTE then (true, apply_cooldown σ user_id now)
  else (false, σ)

/-- Body of `is_rate_limited` after the cooldown gate: clean old requests,
then dispatch on the request type. -/
def rate_limit_body (cfg : BotConfig) (σ : RateLimiterState) (user_id : Int)
    (request_type : String) (now : Int) : Bool × RateLimiterState :=
  let σ' := clean_old_requests σ user_id now
  if request_type = "message" then check_message_rate_limit cfg σ' user_id now
  else if request_type = "api" then check_api_rate_limit cfg σ' user_id now
  else (false, σ')

/-- Embeds rate_limiter.py `is_rate_limited`: an unexpired cooldown short-circuits
to `True` without any state change; an expired cooldown entry is deleted
lazily before the window checks run. -/
def is_rate_limited (cfg : BotConfig) (σ : RateLimiterState) (user_id : Int)
    (request_type : String) (now : Int) : Bool × RateLimiterState :=
  match alookup σ.cooldown_users user_id with
  | some t =>
      if t > now then (true, σ)
      else
        rate_limit_body cfg { σ with cooldown_users := adel σ.cooldown_users user_id }
          user_id request_type now
  | none => rate_limit_body cfg σ user_id request_type now

/-- Embeds rate_limiter.py `reset_user_limits` (explicit admin reset): clear both
request windows, drop any cooldown, and zero the violation counter. -/
def reset_user_limits (σ : RateLimiterState) (user_id : Int) : RateLimiterState :=
  { user_requests := aset σ.user_requests user_id []
    api_requests := aset σ.api_requests user_id []
    cooldown_users := adel σ.cooldown_users user_id
    warning_counts := aset σ.warning_counts user_id 0 }

end RateLimiter

/-! ### Security / account trust (security.py `SecuritySystem`) -/

/-- Mutable state of `SecuritySystem` (the slice the verification claims
touch). -/
structure SecurityState where
  suspicious_users : List Int
  failed_verifications : List (Int × Nat)
deriving DecidableEq, Repr

namespace Security

/-- Embeds security.py `_is_suspicious_username`: a curated token occurs in the
lower-cased username, or more than half of its characters are digits. -/
def is_suspicious_username (username : String) : Bool :=
  (["bot", "spam", "fake", "test", "promo", "ad", "marketing"].any
      (fun p => containsL p.data (lowerData username)))
  || (decide (username.length > 0)
        && decide (2 * (username.data.filter Char.isDigit).length > username.length))

/-- Embeds security.py `_is_suspicious_name`: empty name, more than 30% special
characters, or a promotional keyword. -/
def is_suspicious_name (name : String) : Bool :=
  if name = "" then true
  else
    let special := (name.data.filter (fun c => !c.isAlphanum && !c.isWhitespace)).length
    if 10 * special > 3 * name.length then true
    else
      ["free", "win", "prize", "money", "bitcoin", "crypto"].any
        (fun w => containsL w.data (lowerData name))

/-- Python truthiness of `user.username` (`None` and `""` are both falsy). -/
def has_username (user : TgUser) : Bool :=
  match user.username with
  | none => false
  | some u => u ≠ ""

/-- The additive verification heuristic of `verify_user_account`: missing
username +1, id above the 5 000 000 000 high-water mark +2, suspicious
username +2, suspicious display name +1. -/
def verification_score (user : TgUser) : Nat :=
  (if !has_username user then 1 else 0)
  + (if user.id > 5000000000 then 2 else 0)
  + (if has_username user && is_suspicious_username (user.username.getD "") then 2 else 0)
  + (if is_suspicious_name user.first_name then 1 else 0)

/-- Embeds security.py `verify_user_account`: verified iff the heuristic score is
strictly below 3; a failed verification adds the id to the suspicious set.
Returns `((is_verified, reason), state)`. -/
def verify_user_account (cfg : BotConfig) (σ : SecurityState) (user : TgUser) :
    (Bool × String) × SecurityState :=
  if !cfg.ENABLE_USER_VERIFICATION then ((true, "verification_disabled"), σ)
  else
    let issues :=
      (if !has_username user then ["no_username"] else [])
      ++ (if user.id > 5000000000 then ["potentially_new_account"] else [])
      ++ (if has_username user && is_suspicious_username (user.username.getD "") then
            ["suspicious_username"] else [])
      ++ (if is_suspicious_name user.first_name then ["suspicious_name"] else [])
    let is_verified := decide (verification_score user < 3)
    let reason := if issues = [] then "verified" else String.intercalate ", " issues
    let σ' := if is_verified then σ
      else { σ with suspicious_users := σ.suspicious_users.insert user.id }
    ((is_verified, reason), σ')

end Security

/-! ### Snapshot serialization (bot_data.py `to_dict` / `from_dict` / `load_data`) -/

/-- The serialized form of one `UserStats` record.  Fields read with
`stats_data.get(...)` defaults in `from_dict` are optional; the four fields
read with mandatory indexing are required. -/
structure UserStatsSnap where
  user_id : Int
  username : String
  first_seen : Int
  last_seen : Int
  message_count : Option Nat
  spam_score : Option Nat
  warnings : Option Nat
  verification_status : Option String
  last_spam_check : Option Int
deriving DecidableEq, Repr

/-- The JSON snapshot produced by `to_dict` and consumed by `from_dict`.
Every top-level key is read back with `data.get(...)`, so each field is
optional (`none` models a missing key; ISO-8601 timestamps are modelled by
their integer time values). -/
structure BotSnapshot where
  session_id : Option String
  owner_id : Option Int
  approved_users : Option (List Int)
  banned_users : Option (List (Int × Int))
  group_states : Option (List (Int × Bool))
  chat_history : Option (List String)
  user_stats : Option (List (Int × UserStatsSnap))
  spam_violations : Option (List (Int × List Int))
  suspicious_users : Option (List Int)
  session_start_time : Option Int
  last_backup_time : Option Int
deriving DecidableEq, Repr

/-- Snapshot with every optional field missing. -/
def emptySnapshot : BotSnapshot :=
  { session_id := none, owner_id := none, approved_users := none, banned_users := none
    group_states := none, chat_history := none, user_stats := none
    spam_violations := none, suspicious_users := none, session_start_time := none
    last_backup_time := none }

/-- Serialization of one `UserStats` record (bot_data.py to_dict lines
168-178: every field is written). -/
def statsToSnap (v : UserStats) : UserStatsSnap :=
  { user_id := v.user_id, username := v.username, first_seen := v.first_seen
    last_seen := v.last_seen, message_count := some v.message_count
    spam_score := some v.spam_score, warnings := some v.warnings
    verification_status := some v.verification_status
    last_spam_check := v.last_spam_check }

/-- Deserialization of one `UserStats` record (bot_data.py from_dict lines
211-221, with the `.get` defaults). -/
def snapToStats (s : UserStatsSnap) : UserStats :=
  { user_id := s.user_id, username := s.username, first_seen := s.first_seen
    last_seen := s.last_seen, message_count := s.message_count.getD 0
    spam_score := s.spam_score.getD 0, warnings := s.warnings.getD 0
    verification_status := s.verification_status.getD "unverified"
    last_spam_check := s.last_spam_check }

/-- Embeds bot_data.py `BotData.to_dict`: serialize the persisted fields;
`chat_history` keeps only the last 100 entries; the runtime-only indexes
(`message_hashes`, `user_message_counts`, `rate_limit_violations`,
`api_call_counts`, `failed_verifications`) are not written at all. -/
def BotData.to_dict (b : BotData) : BotSnapshot :=
  { session_id := some b.session_id
    owner_id := some b.owner_id
    approved_users := some b.approved_users
    banned_users := some b.banned_users
    group_states := some b.group_states
    chat_history := some (lastN 100 b.chat_history)
    user_stats := some (b.user_stats.map (fun p => (p.1, statsToSnap p.2)))
    spam_violations := some b.spam_violations
    suspicious_users := some b.suspicious_users
    session_start_time := some b.session_start_time
    last_backup_time := b.last_backup_time }

/-- Embeds bot_data.py `BotData.from_dict`: start from a fresh instance (which
supplies the regenerated session id and current-time session start) and
overwrite each field present in the snapshot, substituting the documented
defaults for missing keys. -/
def BotData.from_dict (cfg : BotConfig) (fresh_session_id : String) (now : Int)
    (d : BotSnapshot) : BotData :=
  let b := BotData.fresh cfg fresh_session_id now
  { b with
    session_id := d.session_id.getD fresh_session_id
    owner_id := d.owner_id.getD cfg.OWNER_ID
    approved_users := d.approved_users.getD []
    banned_users := d.banned_users.getD []
    group_states := d.group_states.getD []
    chat_history := d.chat_history.getD []
    user_stats := (d.user_stats.getD []).map (fun p => (p.1, snapToStats p.2))
    spam_violations := d.spam_violations.getD []
    suspicious_users := d.suspicious_users.getD []
    session_start_time := d.session_start_time.getD now
    last_backup_time := d.last_backup_time }

/-- Disposition of the on-disk data file after `load_data`. -/
inductive FileAction
  | kept
  | renamedAside
  | deleted
deriving DecidableEq, Repr

/-- Embeds bot_data.py `load_data`: if the file exists and parses, deserialize it;
if reading/parsing raises, rename the file aside (to
`<name>.error.<timestamp>`) and fall back to a fresh instance; if the file
does not exist, just return a fresh instance.  `parsed = none` models
`json.load` or `from_dict` raising. -/
def load_data (cfg : BotConfig) (fresh_session_id : String) (now : Int)
    (file_present : Bool) (parsed : Option BotSnapshot) : BotData × FileAction :=
  if file_present then
    match parsed with
    | some d => (BotData.from_dict cfg fresh_session_id now d, FileAction.kept)
    | none => (BotData.fresh cfg fresh_session_id now, FileAction.renamedAside)
  else (BotData.fresh cfg fresh_session_id now, FileAction.kept)

/-! ### Concrete fixtures used by the witnesses -/

/-- Empty anti-spam state. -/
def emptyAS : AntiSpamState := ⟨[], []⟩

/-- Empty moderation state. -/
def emptyMod : ModerationState := ⟨[], []⟩

/-- Empty rate-limiter state. -/
def emptyRL : RateLimiterState := ⟨[], [], [], []⟩

/-- Empty security state. -/
def emptySec : SecurityState := ⟨[], []⟩

/-- Example user fixture. -/
def exUser : TgUser := ⟨7, some "alice", "Alice"⟩

/-- Example update fixture carrying a plain text message. -/
def exUpdate : Update := ⟨some ⟨some "hello"⟩, exUser⟩

/-- Example bot-data fixture. -/
def exBotData : BotData := BotData.fresh exampleConfig "123456" 0

/-- A populated bot-data fixture whose serialized fields are all non-trivial
and whose runtime-only indexes are empty. -/
def populatedBotData : BotData :=
  { BotData.fresh exampleConfig "111111" 0 with
    approved_users := [5, 9]
    banned_users := [(3, 99)]
    group_states := [(1, true), (2, false)]
    chat_history := ["q1", "a1"]
    user_stats := [(7, { user_id := 7, username := "alice", first_seen := 1, last_seen := 2
                         message_count := 4, spam_score := 1, warnings := 2
                         verification_status := "verified", last_spam_check := some 2 })]
    spam_violations := [(7, [1, 2])]
    suspicious_users := [2]
    session_start_time := 1
    last_backup_time := some 4 }

/-! ### Helper lemmas -/

theorem check_duplicate_intervals (cfg : BotConfig) (σ : AntiSpamState) (u : Int)
    (msg : String) (now : Int) :
    ((AntiSpam.check_duplicate_message cfg σ u msg now).2).user_message_intervals
      = σ.user_message_intervals := by
  simp only [AntiSpam.check_duplicate_message]
  split <;> rfl

theorem check_rapid_fst_congr (σ σ' : AntiSpamState) (u : Int) (now : Int)
    (h : σ.user_message_intervals = σ'.user_message_intervals) :
    (AntiSpam.check_rapid_messaging σ u now).1
      = (AntiSpam.check_rapid_messaging σ' u now).1 := by
  simp [AntiSpam.check_rapid_messaging, h]

theorem ite_add_split (c : Prop) [Decidable c] (s w : Nat) :
    (if c then s + w else s) = s + (if c then w else 0) := by
  split <;> simp

theorem ite_ne_nil_length (l : List String) (k : Nat) :
    (if l ≠ [] then l.length * k else 0) = l.length * k := by
  rcases l with _ | ⟨hd, tl⟩ <;> simp

theorem ite_pos_self (n : Nat) : (if n > 0 then n else 0) = n := by
  split <;> omega

/-! ### Claims -/

/-- C10: an update carrying no message, a message with no text, or an empty
text is short-circuited by `check_spam` to exactly `(false, "", 0)`, with the
anti-spam state (duplicate index and cadence index) and the bot data (user
records, violation log) returned untouched. -/
theorem check_spam_no_text_noop (cfg : BotConfig) (σ : AntiSpamState) (bd : BotData)
    (upd : Update) (now : Int)
    (h : upd.message = none
      ∨ ∃ m, upd.message = some m ∧ (m.text = none ∨ m.text = some "")) :
    AntiSpam.check_spam cfg σ bd upd now = ((false, "", 0), σ, bd) := by
  rcases h with h | ⟨m, hm, hn | he⟩ <;> simp [AntiSpam.check_spam, *]

/-- Witness for C10 at an update with no message. -/
theorem check_spam_no_text_noop_witness :
    AntiSpam.check_spam exampleConfig emptyAS exBotData ⟨none, exUser⟩ 5
      = ((false, "", 0), emptyAS, exBotData) :=
  check_spam_no_text_noop exampleConfig emptyAS exBotData ⟨none, exUser⟩ 5 (Or.inl rfl)

/-- C2: the duplicate-message check prunes the fingerprint bucket to the
trailing hour, appends the current `(user, now)` entry only after counting
the prior same-user entries, and returns penalty `count - limit + 1` when
that prior count is at least the configured identical-message limit and `0`
otherwise; under a limit of 3, sending the same text five times yields the
penalty sequence `0, 0, 0, 1, 2`. -/
theorem check_duplicate_message_spec (cfg : BotConfig) (σ : AntiSpamState)
    (u : Int) (msg : String) (now : Int) :
    (agetD ((AntiSpam.check_duplicate_message cfg σ u msg now).2).message_hashes msg []
        = (agetD σ.message_hashes msg []).filter (fun e => decide (e.2 > now - 3600))
            ++ [(u, now)])
    ∧ ((AntiSpam.check_duplicate_message cfg σ u msg now).1 =
        let c := (((agetD σ.message_hashes msg []).filter
            (fun e => decide (e.2 > now - 3600))).filter
              (fun e => decide (e.1 = u))).length
        if c ≥ cfg.MAX_IDENTICAL_MESSAGES then c - cfg.MAX_IDENTICAL_MESSAGES + 1 else 0)
    ∧ (cfg.MAX_IDENTICAL_MESSAGES = 3 →
        AntiSpam.dupPenalties cfg ⟨[], σ.user_message_intervals⟩ u msg
            [0, 1, 2, 3, 4]
          = [0, 0, 0, 1, 2]) := by
  refine ⟨?_, ?_, ?_⟩
  · simp only [AntiSpam.check_duplicate_message]
    split <;> simp [agetD_aset_self]
  · simp only [AntiSpam.check_duplicate_message]
    split <;> simp_all
  · intro hlim
    norm_num [AntiSpam.dupPenalties, AntiSpam.check_duplicate_message, agetD, alookup,
      aset, hlim]

/-- Witness for C2 at the default configuration (identical-message limit 3). -/
theorem check_duplicate_message_spec_witness :
    (agetD ((AntiSpam.check_duplicate_message exampleConfig emptyAS 7 "buy now" 50).2).message_hashes
        "buy now" []
      = (agetD emptyAS.message_hashes "buy now" []).filter (fun e => decide (e.2 > 50 - 3600))
          ++ [(7, 50)])
    ∧ AntiSpam.dupPenalties exampleConfig ⟨[], emptyAS.user_message_intervals⟩ 7 "buy now"
        [0, 1, 2, 3, 4] = [0, 0, 0, 1, 2] :=
  ⟨(check_duplicate_message_spec exampleConfig emptyAS 7 "buy now" 50).1,
   (check_duplicate_message_spec exampleConfig emptyAS 7 "buy now" 50).2.2 rfl⟩

theorem warn_user_count (σ : ModerationState) (c u : Int) (now : Int) :
    Moderation.get_user_warnings (Moderation.warn_user σ c u now).1 c u
      = Moderation.get_user_warnings σ c u + 1 := by
  simp only [Moderation.warn_user, Moderation.mute_user, Moderation.get_user_warnings]
  split <;> simp [agetD_aset_self]

theorem warn_user_warn_mem (σ : ModerationState) (c u : Int) (now : Int) :
    ModAction.warn c u (Moderation.get_user_warnings σ c u + 1)
      ∈ (Moderation.warn_user σ c u now).2 := by
  simp only [Moderation.warn_user, Moderation.mute_user, Moderation.get_user_warnings]
  split <;> simp

/-- C3: in a non-private chat, a score at or above the auto-ban threshold
issues exactly a ban (plus the message-deletion request) and leaves the
moderation state untouched — no mute record, no warning counted, never
mute-then-ban; a score in `[T+2, B)` mutes for 30 minutes; a score in
`[T, T+2)` (below `B`) warns, incrementing the warning counter. -/
theorem handle_spam_violation_thresholds (cfg : BotConfig) (σ : ModerationState)
    (chat_type : String) (chat_id user_id : Int) (s : Nat) (now : Int)
    (hpriv : chat_type ≠ "private") :
    (s ≥ cfg.AUTO_BAN_SPAM_SCORE →
        Moderation.handle_spam_violation cfg σ chat_type chat_id user_id s now
          = (σ, [ModAction.ban chat_id user_id, ModAction.deleteMessage]))
    ∧ (cfg.SPAM_SCORE_THRESHOLD + 2 ≤ s → s < cfg.AUTO_BAN_SPAM_SCORE →
        Moderation.handle_spam_violation cfg σ chat_type chat_id user_id s now
          = ({ σ with muted_users := aset σ.muted_users (chat_id, user_id) (now + 30 * 60) },
             [ModAction.mute chat_id user_id 30, ModAction.deleteMessage]))
    ∧ (cfg.SPAM_SCORE_THRESHOLD ≤ s → s < cfg.SPAM_SCORE_THRESHOLD + 2 →
        s < cfg.AUTO_BAN_SPAM_SCORE →
        Moderation.get_user_warnings
            (Moderation.handle_spam_violation cfg σ chat_type chat_id user_id s now).1
            chat_id user_id
          = Moderation.get_user_warnings σ chat_id user_id + 1
        ∧ ModAction.warn chat_id user_id (Moderation.get_user_warnings σ chat_id user_id + 1)
            ∈ (Moderation.handle_spam_violation cfg σ chat_type chat_id user_id s now).2) := by
  refine ⟨?_, ?_, ?_⟩
  · intro hb
    simp [Moderation.handle_spam_violation, hpriv, hb]
  · intro h1 h2
    have hb : ¬ s ≥ cfg.AUTO_BAN_SPAM_SCORE := by omega
    simp [Moderation.handle_spam_violation, Moderation.mute_user, hpriv, hb, h1]
  · intro h1 h2 h3
    have hb : ¬ s ≥ cfg.AUTO_BAN_SPAM_SCORE := by omega
    have hm : ¬ s ≥ cfg.SPAM_SCORE_THRESHOLD + 2 := by omega
    simp only [Moderation.handle_spam_violation, if_neg hpriv, if_neg hb, if_neg hm,
      if_pos h1]
    exact ⟨warn_user_count σ chat_id user_id now,
      List.mem_append.mpr (Or.inl (warn_user_warn_mem σ chat_id user_id now))⟩

/-- Witness for C3 at the default thresholds (`T = 5`, `B = 10`) with scores
12 (ban), 8 (mute), and 5 (warn). -/
theorem handle_spam_violation_thresholds_witness :
    (Moderation.handle_spam_violation exampleConfig emptyMod "group" 1 7 12 0
        = (emptyMod, [ModAction.ban 1 7, ModAction.deleteMessage]))
    ∧ (Moderation.handle_spam_violation exampleConfig emptyMod "group" 1 7 8 0
        = ({ emptyMod with muted_users := aset emptyMod.muted_users (1, 7) (0 + 30 * 60) },
           [ModAction.mute 1 7 30, ModAction.deleteMessage]))
    ∧ (Moderation.get_user_warnings
          (Moderation.handle_spam_violation exampleConfig emptyMod "group" 1 7 5 0).1 1 7
        = Moderation.get_user_warnings emptyMod 1 7 + 1) :=
  ⟨(handle_spam_violation_thresholds exampleConfig emptyMod "group" 1 7 12 0
      (by decide)).1 (by decide),
   (handle_spam_violation_thresholds exampleConfig emptyMod "group" 1 7 8 0
      (by decide)).2.1 (by decide) (by decide),
   ((handle_spam_violation_thresholds exampleConfig emptyMod "group" 1 7 5 0
      (by decide)).2.2 (by decide) (by decide) (by decide)).1⟩

/-- C6: warning a (chat, user) increments its warning counter; when the
counter reaches 3 the warn additionally records a 60-minute mute while the
counter keeps its incremented value (the auto-mute does not touch it);
below 3 no mute record is created; only the explicit admin clear resets the
counter to 0. -/
theorem warn_user_escalation (σ : ModerationState) (chat_id user_id : Int) (now : Int) :
    Moderation.get_user_warnings (Moderation.warn_user σ chat_id user_id now).1
        chat_id user_id
      = Moderation.get_user_warnings σ chat_id user_id + 1
    ∧ (Moderation.get_user_warnings σ chat_id user_id + 1 ≥ 3 →
        ModAction.mute chat_id user_id 60 ∈ (Moderation.warn_user σ chat_id user_id now).2
        ∧ alookup (Moderation.warn_user σ chat_id user_id now).1.muted_users
            (chat_id, user_id) = some (now + 60 * 60))
    ∧ (Moderation.get_user_warnings σ chat_id user_id + 1 < 3 →
        (Moderation.warn_user σ chat_id user_id now).1.muted_users = σ.muted_users)
    ∧ Moderation.get_user_warnings
        (Moderation.clear_user_warnings (Moderation.warn_user σ chat_id user_id now).1
          chat_id user_id) chat_id user_id = 0 := by
  refine ⟨warn_user_count σ chat_id user_id now, ?_, ?_, ?_⟩
  · intro h3
    simp only [Moderation.warn_user, Moderation.mute_user, Moderation.get_user_warnings] at *
    rw [if_pos h3]
    simp [alookup_aset_self]
  · intro h3
    have : ¬ (agetD σ.warning_counts (chat_id, user_id) 0 + 1 ≥ 3) := by
      simp only [Moderation.get_user_warnings] at h3
      omega
    simp only [Moderation.warn_user, Moderation.mute_user]
    rw [if_neg this]
  · simp [Moderation.clear_user_warnings, Moderation.get_user_warnings, agetD,
      alookup_adel_self]

/-- Witness for C6: the third warning for the same (chat, user) triggers the
60-minute mute record and the counter survives at 3. -/
theorem warn_user_escalation_witness :
    Moderation.get_user_warnings
        (Moderation.warn_user ⟨[((1, 7), 2)], []⟩ 1 7 100).1 1 7
      = Moderation.get_user_warnings (⟨[((1, 7), 2)], []⟩ : ModerationState) 1 7 + 1
    ∧ (ModAction.mute 1 7 60 ∈ (Moderation.warn_user ⟨[((1, 7), 2)], []⟩ 1 7 100).2
        ∧ alookup (Moderation.warn_user ⟨[((1, 7), 2)], []⟩ 1 7 100).1.muted_users (1, 7)
            = some (100 + 60 * 60)) :=
  ⟨(warn_user_escalation ⟨[((1, 7), 2)], []⟩ 1 7 100).1,
   (warn_user_escalation ⟨[((1, 7), 2)], []⟩ 1 7 100).2.1 (by decide)⟩

/-- C4 (amended): every rate-limit breach increments the per-user violation
counter and sets a cooldown ending `min(count * 5, 60)` minutes from now;
with counter 0 beforehand the first breach gives 5 minutes, with counter 3
the fourth breach gives 20 minutes, with counter 9 the tenth breach gives
50 minutes (not 60), and the 60-minute cap first binds at the twelfth
breach (counter 11). -/
theorem apply_cooldown_progressive (σ : RateLimiterState) (u : Int) (now : Int) :
    agetD (RateLimiter.apply_cooldown σ u now).warning_counts u 0
      = agetD σ.warning_counts u 0 + 1
    ∧ alookup (RateLimiter.apply_cooldown σ u now).cooldown_users u
      = some (now + ((min ((agetD σ.warning_counts u 0 + 1) * 5) 60 : Nat) : Int) * 60)
    ∧ (agetD σ.warning_counts u 0 = 0 →
        alookup (RateLimiter.apply_cooldown σ u now).cooldown_users u
          = some (now + 5 * 60))
    ∧ (agetD σ.warning_counts u 0 = 3 →
        alookup (RateLimiter.apply_cooldown σ u now).cooldown_users u
          = some (now + 20 * 60))
    ∧ (agetD σ.warning_counts u 0 = 9 →
        alookup (RateLimiter.apply_cooldown σ u now).cooldown_users u
          = some (now + 50 * 60))
    ∧ (agetD σ.warning_counts u 0 = 11 →
        alookup (RateLimiter.apply_cooldown σ u now).cooldown_users u
          = some (now + 60 * 60)) := by
  refine ⟨?_, ?_, ?_, ?_, ?_, ?_⟩
  · simp [RateLimiter.apply_cooldown, agetD_aset_self]
  · simp [RateLimiter.apply_cooldown, alookup_aset_self]
  · intro h
    simp [RateLimiter.apply_cooldown, alookup_aset_self, h]
  · intro h
    simp [RateLimiter.apply_cooldown, alookup_aset_self, h]
  · intro h
    simp [RateLimiter.apply_cooldown, alookup_aset_self, h]
  · intro h
    simp [RateLimiter.apply_cooldown, alookup_aset_self, h]

/-- Counterexample for C4 as stated: with violation counter 9 (so the tenth
breach, with no intervening reset), the cooldown set is 50 minutes, not the
claimed 60-minute cap. -/
theorem tenth_breach_is_fifty_minutes :
    alookup (RateLimiter.apply_cooldown ⟨[], [], [], [(7, 9)]⟩ 7 0).cooldown_users 7
      = some (50 * 60)
    ∧ alookup (RateLimiter.apply_cooldown ⟨[], [], [], [(7, 9)]⟩ 7 0).cooldown_users 7
      ≠ some (60 * 60) := by
  decide

/-- Witness for C4: fourth consecutive breach (counter at 3) yields a
20-minute cooldown and counter 4. -/
theorem apply_cooldown_progressive_witness :
    agetD (RateLimiter.apply_cooldown ⟨[], [], [], [(7, 3)]⟩ 7 1000).warning_counts 7 0
      = agetD (⟨[], [], [], [(7, 3)]⟩ : RateLimiterState).warning_counts 7 0 + 1
    ∧ alookup (RateLimiter.apply_cooldown ⟨[], [], [], [(7, 3)]⟩ 7 1000).cooldown_users 7
      = some (1000 + 20 * 60) :=
  ⟨(apply_cooldown_progressive ⟨[], [], [], [(7, 3)]⟩ 7 1000).1,
   (apply_cooldown_progressive ⟨[], [], [], [(7, 3)]⟩ 7 1000).2.2.2.1 (by decide)⟩

/-- C5: an unexpired cooldown makes `is_rate_limited` return true with the
state (cooldown entry included) completely unchanged, for any request type;
an expired cooldown entry is removed lazily on the next check (shown with
empty request windows and positive caps so no new cooldown fires); the
explicit admin reset clears both request windows, drops the cooldown, and
zeroes the violation counter. -/
theorem cooldown_semantics (cfg : BotConfig) (σ : RateLimiterState) (u : Int)
    (request_type : String) (now t : Int) :
    (alookup σ.cooldown_users u = some t → t > now →
        RateLimiter.is_rate_limited cfg σ u request_type now = (true, σ))
    ∧ (alookup σ.cooldown_users u = some t → t ≤ now →
        agetD σ.user_requests u [] = [] → agetD σ.api_requests u [] = [] →
        0 < cfg.MAX_MESSAGES_PER_MINUTE → 0 < cfg.MAX_MESSAGES_PER_HOUR →
        (RateLimiter.is_rate_limited cfg σ u "message" now).1 = false
        ∧ alookup (RateLimiter.is_rate_limited cfg σ u "message" now).2.cooldown_users u
            = none)
    ∧ (agetD (RateLimiter.reset_user_limits σ u).user_requests u [] = []
        ∧ agetD (RateLimiter.reset_user_limits σ u).api_requests u [] = []
        ∧ alookup (RateLimiter.reset_user_limits σ u).cooldown_users u = none
        ∧ agetD (RateLimiter.reset_user_limits σ u).warning_counts u 0 = 0) := by
  refine ⟨?_, ?_, ?_, ?_, ?_, ?_⟩
  · intro hcd hgt
    simp [RateLimiter.is_rate_limited, hcd, hgt]
  · intro hcd hle hur har hmin hhr
    have hngt : ¬ t > now := by omega
    have h1 : ¬ cfg.MAX_MESSAGES_PER_MINUTE = 0 := by omega
    have h2 : ¬ cfg.MAX_MESSAGES_PER_HOUR = 0 := by omega
    simp [RateLimiter.is_rate_limited, RateLimiter.rate_limit_body,
      RateLimiter.clean_old_requests, RateLimiter.check_message_rate_limit,
      hcd, hngt, hur, har, agetD_aset_self, h1, h2, alookup_adel_self]
  · simp [RateLimiter.reset_user_limits, agetD_aset_self]
  · simp [RateLimiter.reset_user_limits, agetD_aset_self]
  · simp [RateLimiter.reset_user_limits, alookup_adel_self]
  · simp [RateLimiter.reset_user_limits, agetD_aset_self]

/-- Witness for C5: user 7 with an active cooldown until 500 checked at time
100 is limited with unchanged state; the same cooldown checked at 600 with
empty windows is gone afterwards. -/
theorem cooldown_semantics_witness :
    (RateLimiter.is_rate_limited exampleConfig ⟨[], [], [(7, 500)], [(7, 1)]⟩ 7 "message" 100
        = (true, ⟨[], [], [(7, 500)], [(7, 1)]⟩))
    ∧ alookup (RateLimiter.is_rate_limited exampleConfig ⟨[], [], [(7, 500)], [(7, 1)]⟩ 7
        "message" 600).2.cooldown_users 7 = none :=
  ⟨(cooldown_semantics exampleConfig ⟨[], [], [(7, 500)], [(7, 1)]⟩ 7 "message" 100 500).1
      rfl (by decide),
   ((cooldown_semantics exampleConfig ⟨[], [], [(7, 500)], [(7, 1)]⟩ 7 "message" 600 500).2.1
      rfl (by decide) rfl rfl (by decide) (by decide)).2⟩

/-- C8: with verification enabled, `verify_user_account` reports verified
exactly when the additive heuristic score (missing username +1, id above
the high-water mark +2, suspicious username +2, suspicious display name +1)
is strictly below 3; a failed verification adds the id to the suspicious
set; username "bot12345" is flagged suspicious and "alice_wong" is not. -/
theorem verify_user_account_spec (cfg : BotConfig) (σ : SecurityState) (user : TgUser)
    (h : cfg.ENABLE_USER_VERIFICATION = true) :
    ((Security.verify_user_account cfg σ user).1.1 = true
        ↔ Security.verification_score user < 3)
    ∧ ((Security.verify_user_account cfg σ user).1.1 = false →
        user.id ∈ ((Security.verify_user_account cfg σ user).2).suspicious_users)
    ∧ Security.is_suspicious_username "bot12345" = true
    ∧ Security.is_suspicious_username "alice_wong" = false := by
  refine ⟨?_, ?_, by decide, by decide⟩
  · simp [Security.verify_user_account, h]
  · intro hf
    simp only [Security.verify_user_account, h, Bool.not_true, Bool.false_eq_true,
      if_false] at hf ⊢
    rw [decide_eq_false_iff_not] at hf
    rw [if_neg (by simpa using hf)]
    simp [List.mem_insert_iff]

/-- Witness for C8 at the suspicious fixture user (id above the high-water
mark, username "bot12345"): not verified, id recorded as suspicious. -/
theorem verify_user_account_spec_witness :
    ((Security.verify_user_account exampleConfig emptySec
        ⟨6000000000, some "bot12345", "Bob"⟩).1.1 = true
      ↔ Security.verification_score ⟨6000000000, some "bot12345", "Bob"⟩ < 3)
    ∧ ((6000000000 : Int) ∈ ((Security.verify_user_account exampleConfig emptySec
        ⟨6000000000, some "bot12345", "Bob"⟩).2).suspicious_users) :=
  ⟨(verify_user_account_spec exampleConfig emptySec ⟨6000000000, some "bot12345", "Bob"⟩
      rfl).1,
   (verify_user_account_spec exampleConfig emptySec ⟨6000000000, some "bot12345", "Bob"⟩
      rfl).2.1 (by decide)⟩

/-- C9: deserializing a snapshot with every optional field missing yields
exactly the fresh default state (empty collections, the regenerated session
id, current-time session start); a file that exists but fails to parse is
renamed aside — never deleted — and `load_data` falls back to a fresh empty
state instead of raising. -/
theorem load_data_defaults_and_quarantine (cfg : BotConfig) (fresh_session_id : String)
    (now : Int) (file_present : Bool) (parsed : Option BotSnapshot) :
    BotData.from_dict cfg fresh_session_id now emptySnapshot
        = BotData.fresh cfg fresh_session_id now
    ∧ (file_present = true → parsed = none →
        load_data cfg fresh_session_id now file_present parsed
          = (BotData.fresh cfg fresh_session_id now, FileAction.renamedAside))
    ∧ (load_data cfg fresh_session_id now file_present parsed).2 ≠ FileAction.deleted := by
  refine ⟨rfl, ?_, ?_⟩
  · rintro rfl rfl
    simp [load_data]
  · unfold load_data
    split
    · cases parsed <;> simp
    · simp

/-- Witness for C9: a present-but-corrupt file at the example configuration
is quarantined and replaced by the fresh state. -/
theorem load_data_defaults_and_quarantine_witness :
    load_data exampleConfig "424242" 77 true none
      = (BotData.fresh exampleConfig "424242" 77, FileAction.renamedAside) :=
  (load_data_defaults_and_quarantine exampleConfig "424242" 77 true none).2.1 rfl rfl

/-- Counterexample for C7 as stated: a populated state whose
`failed_verifications` map is non-empty does not round-trip field-for-field
through `to_dict`/`from_dict` — that field (like the other runtime-only
indexes) is not serialized and comes back empty, and it is not a field the
code regenerates. -/
theorem roundtrip_drops_runtime_fields :
    BotData.from_dict exampleConfig "111111" 0
        (BotData.to_dict { BotData.fresh exampleConfig "111111" 0 with
          failed_verifications := [(1, 2)] })
      ≠ { BotData.fresh exampleConfig "111111" 0 with failed_verifications := [(1, 2)] }
    ∧ (BotData.from_dict exampleConfig "111111" 0
        (BotData.to_dict { BotData.fresh exampleConfig "111111" 0 with
          failed_verifications := [(1, 2)] })).failed_verifications = [] := by
  decide

/-- C7 (amended): serializing and deserializing a state whose chat history
has at most 100 entries and whose runtime-only indexes (`message_hashes`,
`user_message_counts`, `rate_limit_violations`, `api_call_counts`,
`failed_verifications` — fields `to_dict` never writes) are empty yields a
state equal field-for-field to the original; the session id is regenerated
only when absent from the snapshot. -/
theorem to_dict_from_dict_roundtrip (cfg : BotConfig) (fresh_session_id : String)
    (now : Int) (b : BotData)
    (hch : b.chat_history.length ≤ 100)
    (hmh : b.message_hashes = []) (humc : b.user_message_counts = [])
    (hrl : b.rate_limit_violations = []) (hac : b.api_call_counts = [])
    (hfv : b.failed_verifications = []) :
    BotData.from_dict cfg fresh_session_id now (BotData.to_dict b) = b := by
  have hstats : ∀ l : List (Int × UserStats),
      (l.map (fun p => (p.1, statsToSnap p.2))).map (fun p => (p.1, snapToStats p.2)) = l := by
    intro l
    induction l with
    | nil => rfl
    | cons hd tl ih =>
        rw [List.map_cons, List.map_cons, ih]
        exact rfl
  have hlast : lastN 100 b.chat_history = b.chat_history := by
    simp [lastN, Nat.sub_eq_zero_of_le hch]
  cases b
  simp_all [BotData.from_dict, BotData.to_dict, BotData.fresh]

/-- Witness for C7 (amended) at the populated fixture. -/
theorem to_dict_from_dict_roundtrip_witness :
    BotData.from_dict exampleConfig "999999" 50 (BotData.to_dict populatedBotData)
      = populatedBotData :=
  to_dict_from_dict_roundtrip exampleConfig "999999" 50 populatedBotData
    (by decide) rfl rfl rfl rfl rfl

/-- C1: for every update carrying a non-empty text message, `check_spam`
returns a score equal to the literal sum of the triggered signal weights
(`spamSignalSum`: +2 over-length, +2 per matching pattern, +1 profanity,
+1 excessive caps, the variable duplicate penalty, +3 short link, +2 rapid
messaging, +1 high user id), and reports spam exactly when that sum reaches
the configured spam threshold. -/
theorem check_spam_score_is_signal_sum (cfg : BotConfig) (σ : AntiSpamState)
    (bd : BotData) (upd : Update) (now : Int) (msg : TgMessage) (text : String)
    (hm : upd.message = some msg) (ht : msg.text = some text) (hne : text ≠ "") :
    (AntiSpam.check_spam cfg σ bd upd now).1.2.2
        = AntiSpam.spamSignalSum cfg σ upd.effective_user text now
    ∧ ((AntiSpam.check_spam cfg σ bd upd now).1.1 = true
        ↔ AntiSpam.spamSignalSum cfg σ upd.effective_user text now
            ≥ cfg.SPAM_SCORE_THRESHOLD) := by
  have hrapid := check_rapid_fst_congr
      (AntiSpam.check_duplicate_message cfg σ upd.effective_user.id text now).2 σ
      upd.effective_user.id now
      (check_duplicate_intervals cfg σ upd.effective_user.id text now)
  constructor
  · simp only [AntiSpam.check_spam, hm, ht, if_neg hne, AntiSpam.spamSignalSum, hrapid,
      ite_add_split, ite_ne_nil_length, ite_pos_self, Nat.zero_add, Nat.add_zero]
    omega
  · simp only [AntiSpam.check_spam, hm, ht, if_neg hne, AntiSpam.spamSignalSum, hrapid,
      ite_add_split, ite_ne_nil_length, ite_pos_self, Nat.zero_add, Nat.add_zero,
      decide_eq_true_eq, ge_iff_le]
    omega

/-- Witness for C1 at a concrete text message. -/
theorem check_spam_score_is_signal_sum_witness :
    (AntiSpam.check_spam exampleConfig emptyAS exBotData exUpdate 0).1.2.2
        = AntiSpam.spamSignalSum exampleConfig emptyAS exUpdate.effective_user "hello" 0
    ∧ ((AntiSpam.check_spam exampleConfig emptyAS exBotData exUpdate 0).1.1 = true
        ↔ AntiSpam.spamSignalSum exampleConfig emptyAS exUpdate.effective_user "hello" 0
            ≥ exampleConfig.SPAM_SCORE_THRESHOLD) :=
  check_spam_score_is_signal_sum exampleConfig emptyAS exBotData exUpdate 0
    ⟨some "hello"⟩ "hello" rfl rfl (by decide)

end TgBot
